import Mathlib

/-!
Shallow embedding of the gesture-controlled PDF reader
(`gesture_detector.py`, `pdf_reader.py`, `main.py`).

Real-valued quantities (normalized landmark coordinates, wall-clock times,
thresholds) are modelled as rationals `ℚ`.  The mutable instance fields of
`GestureDetector` become an explicit state record `GState`, and the method
`detect_gesture` becomes a pure step function
`detect_gesture : GState → FrameInput → GState × Option Gesture`.
Drawing/overlay calls and `print` logging are side effects with no influence
on state or result and are omitted.
-/

namespace InconvenientPDF

/-- A normalized 2D landmark, `(x, y) ∈ [0,1]×[0,1]`, y increasing downward. -/
structure Landmark where
  x : ℚ
  y : ℚ
deriving DecidableEq

/-- The hand landmarks consumed by `gesture_detector.py`, by MediaPipe index:
`wrist` = landmark 0, `thumb_tip` = 4, `index_mcp` = 5, `index_pip` = 6,
`index_tip` = 8, `middle_pip` = 10, `middle_tip` = 12, `ring_tip` = 16,
`pinky_tip` = 20.  Only these nine of the 21 are ever read by the code. -/
structure HandObservation where
  wrist : Landmark
  thumb_tip : Landmark
  index_mcp : Landmark
  index_pip : Landmark
  index_tip : Landmark
  middle_pip : Landmark
  middle_tip : Landmark
  ring_tip : Landmark
  pinky_tip : Landmark
deriving DecidableEq

/-- The face landmarks consumed: `upper_lip` = landmark 13, `lower_lip` = 14. -/
structure FaceObservation where
  upper_lip : Landmark
  lower_lip : Landmark
deriving DecidableEq

/-- The lip detection zone derived each frame (`lip_region` dict in the code). -/
structure LipRegion where
  x : ℚ
  y : ℚ
  radius : ℚ
deriving DecidableEq

/-- The emitted gesture event: the code returns `'left'`, `'right'` or `None`. -/
inductive Gesture where
  | left
  | right
deriving DecidableEq

/-- One frame's worth of input to `detect_gesture`: the current wall-clock
time (`time.time()`), the optional hand observation
(`hand_results.multi_hand_landmarks`, at most one hand since
`max_num_hands=1`) and the optional face observation
(`face_results.multi_face_landmarks`). -/
structure FrameInput where
  time : ℚ
  hand : Option HandObservation
  face : Option FaceObservation
deriving DecidableEq

/-- The mutable per-session state of `GestureDetector` (its instance fields).
`previous_x` is initialized but never read or written again and is omitted. -/
structure GState where
  start_x : Option ℚ
  gesture_started : Bool
  movement_frames : ℕ
  last_gesture_time : ℚ
  finger_licked : Bool
  lick_time : ℚ
  was_at_lips : Bool
  position_history : List ℚ
  thumb_history : List ℚ
deriving DecidableEq

/-- `self.swipe_threshold_left = 0.10` -/
def swipe_threshold_left : ℚ := 10/100

/-- `self.swipe_threshold_right = 0.12` -/
def swipe_threshold_right : ℚ := 12/100

/-- `self.fast_swipe_threshold = 0.20` -/
def fast_swipe_threshold : ℚ := 20/100

/-- `self.gesture_cooldown = 1.5` -/
def gesture_cooldown : ℚ := 15/10

/-- `self.min_frames = 3` -/
def min_frames : ℕ := 3

/-- `self.max_frames = 25` -/
def max_frames : ℕ := 25

/-- `self.lick_timeout = 5.0` -/
def lick_timeout : ℚ := 5

/-- `self.history_size = 15` -/
def history_size : ℕ := 15

/-- `lip_radius = 0.08` -/
def lip_radius : ℚ := 8/100

/-- The state set up in `GestureDetector.__init__`. -/
def initState : GState :=
  { start_x := none
    gesture_started := false
    movement_frames := 0
    last_gesture_time := 0
    finger_licked := false
    lick_time := 0
    was_at_lips := false
    position_history := []
    thumb_history := [] }

/-- `GestureDetector.is_finger_lick_pose` (lines 50-82): index extended
(`index_tip.y < index_pip.y - 0.05`), index in the top half of the frame
(`index_tip.y < 0.5`), and index the most extended finger (its tip higher
than the middle, ring and pinky tips, each by more than `0.05`). -/
def is_finger_lick_pose (h : HandObservation) : Prop :=
  (h.index_tip.y < h.index_pip.y - 5/100) ∧
  (h.index_tip.y < 1/2) ∧
  (h.index_tip.y < h.middle_tip.y - 5/100 ∧
   h.index_tip.y < h.ring_tip.y - 5/100 ∧
   h.index_tip.y < h.pinky_tip.y - 5/100)

instance (h : HandObservation) : Decidable (is_finger_lick_pose h) := by
  unfold is_finger_lick_pose
  infer_instance

/-- The lip zone derived from a face observation (lines 110-123): center is
the average of the upper/lower lip landmarks, radius `0.08`. -/
def lipRegionOfFace (f : FaceObservation) : LipRegion :=
  { x := (f.upper_lip.x + f.lower_lip.x) / 2
    y := (f.upper_lip.y + f.lower_lip.y) / 2
    radius := lip_radius }

/-- `finger_at_lips` (lines 140-152): the index fingertip is within the lip
zone, i.e. `sqrt(dx² + dy²) < radius`.  Stated here in the equivalent
squared form `dx² + dy² < radius²` (both sides of the source comparison are
nonnegative, so squaring preserves the strict inequality). -/
def finger_at_lips (h : HandObservation) : Option LipRegion → Prop
  | none => False
  | some lz =>
      (h.index_tip.x - lz.x) ^ 2 + (h.index_tip.y - lz.y) ^ 2 < lz.radius ^ 2

instance (h : HandObservation) (lr : Option LipRegion) :
    Decidable (finger_at_lips h lr) := by
  cases lr <;> unfold finger_at_lips <;> infer_instance

/-- `currently_at_lips = is_lick_pose or finger_at_lips` (line 162). -/
def currently_at_lips (h : HandObservation) (lr : Option LipRegion) : Prop :=
  is_finger_lick_pose h ∨ finger_at_lips h lr

instance (h : HandObservation) (lr : Option LipRegion) :
    Decidable (currently_at_lips h lr) := by
  unfold currently_at_lips
  infer_instance

/-- Whether a frame input triggers the priming check: a hand is present and
`currently_at_lips` holds for it (with the lip zone derived from the frame's
face observation, if any). -/
def primingFrame (inp : FrameInput) : Prop :=
  match inp.hand with
  | none => False
  | some h => currently_at_lips h (inp.face.map lipRegionOfFace)

instance (inp : FrameInput) : Decidable (primingFrame inp) := by
  unfold primingFrame
  cases inp.hand <;> infer_instance

/-- Consecutive differences `hist[i] - hist[i-1]` for `i = 1 .. len-1`
(the loops at lines 237-249). -/
def stepDiffs (hist : List ℚ) : List ℚ :=
  (hist.zip hist.tail).map fun p => p.2 - p.1

/-- Number of steps with `diff > 0.01` (`movements_right` / `thumb_right`). -/
def votesRight (hist : List ℚ) : ℕ :=
  (stepDiffs hist).countP fun d => decide (d > 1/100)

/-- Number of steps with `diff < -0.01` (`movements_left` / `thumb_left`). -/
def votesLeft (hist : List ℚ) : ℕ :=
  (stepDiffs hist).countP fun d => decide (d < -(1/100))

/-- `total_movements` / `total_thumb_movements` (lines 252-253). -/
def totalVotes (hist : List ℚ) : ℕ :=
  votesRight hist + votesLeft hist

/-- `right_ratio` / `thumb_right_ratio` (lines 256, 258). -/
def rightVoteFrac (hist : List ℚ) : ℚ :=
  (votesRight hist : ℚ) / (totalVotes hist : ℚ)

/-- `left_ratio` / `thumb_left_ratio` (lines 257, 259). -/
def leftVoteFrac (hist : List ℚ) : ℚ :=
  (votesLeft hist : ℚ) / (totalVotes hist : ℚ)

/-- `total_movement = end_pos - start_pos` with
`start_pos = history[0]`, `end_pos = history[-1]` (lines 218-220); the
defaults are irrelevant since the caller guarantees `len ≥ 5`. -/
def netMovement (hist : List ℚ) : ℚ :=
  hist.getLastD 0 - hist.headD 0

/-- The swipe decision of lines 218-301, as a function of the finger history
`ph` and the thumb history `th`: requires at least one directional vote in
each stream, then checks the right conditions before the left ones (distance
threshold, required consistency depending on the fast-swipe flag
`|total_movement| > fast_swipe_threshold`, and thumb/finger agreement
`right_ratio > 0.5 ∧ thumb_right_ratio > 0.5`, resp. both left ratios
`> 0.45`). -/
def swipeClassifier (ph th : List ℚ) : Option Gesture :=
  if 0 < totalVotes ph ∧ 0 < totalVotes th then
    if netMovement ph > swipe_threshold_right ∧
       rightVoteFrac ph >
         (if |netMovement ph| > fast_swipe_threshold then (5:ℚ)/10 else 6/10) ∧
       (rightVoteFrac ph > 5/10 ∧ rightVoteFrac th > 5/10) then
      some Gesture.right
    else if netMovement ph < -swipe_threshold_left ∧
       leftVoteFrac ph >
         (if |netMovement ph| > fast_swipe_threshold then (45:ℚ)/100 else 55/100) ∧
       (leftVoteFrac ph > 45/100 ∧ leftVoteFrac th > 45/100) then
      some Gesture.left
    else none
  else none

/-- Append a sample and evict the oldest when the buffer exceeds
`history_size` (lines 191-196: `append` then `pop(0)` when `len > 15`). -/
def pushTrim (hist : List ℚ) (x : ℚ) : List ℚ :=
  if history_size < (hist ++ [x]).length then (hist ++ [x]).tail else hist ++ [x]

/-- The reset performed at lines 208-211, 304-307 and 309-312:
`gesture_started = False`, both histories cleared. -/
def clearTracking (s : GState) : GState :=
  { s with gesture_started := false, position_history := [], thumb_history := [] }

/-- The state mutations accompanying an emitted swipe (lines 280-284 and
293-297): record the gesture time, stop tracking, consume the priming, and
clear both histories. -/
def emitState (t : ℚ) (s : GState) : GState :=
  { s with last_gesture_time := t
           gesture_started := false
           finger_licked := false
           position_history := []
           thumb_history := [] }

/-- The history appends of lines 191-196: push `middle_finger_tip.x` onto
the finger history and `thumb_tip.x` onto the thumb history, each trimmed to
capacity. -/
def appendHistories (cx tx : ℚ) (s : GState) : GState :=
  { s with position_history := pushTrim s.position_history cx
           thumb_history := pushTrim s.thumb_history tx }

/-- Lines 199-202: start tracking a new gesture. -/
def trackStart (cx : ℚ) (s : GState) : GState :=
  { s with start_x := some cx, gesture_started := true, movement_frames := 0 }

/-- Line 204: `self.movement_frames += 1`. -/
def bumpFrames (s : GState) : GState :=
  { s with movement_frames := s.movement_frames + 1 }

/-- Lines 206-301 applied to the state after the frame-counter increment:
during cooldown (`current_time - last_gesture_time <= gesture_cooldown`)
reset tracking; else when `movement_frames >= min_frames` and both
histories hold at least 5 samples consult the swipe decision, and on a hit
apply the emission effects. -/
def cooldownOrClassify (t : ℚ) (s : GState) : GState × Option Gesture :=
  if t - s.last_gesture_time ≤ gesture_cooldown then
    (clearTracking s, none)
  else if min_frames ≤ s.movement_frames ∧
          5 ≤ s.position_history.length ∧ 5 ≤ s.thumb_history.length then
    match swipeClassifier s.position_history s.thumb_history with
    | some g => (emitState t s, some g)
    | none => (s, none)
  else (s, none)

/-- Lines 303-307: reset tracking when `movement_frames > max_frames`
(this runs after the cooldown/classification chain, whatever it did). -/
def maxFramesReset (p : GState × Option Gesture) : GState × Option Gesture :=
  if max_frames < p.1.movement_frames then (clearTracking p.1, p.2) else p

/-- Lines 189-307, the block guarded by
`if self.finger_licked and not currently_at_lips`: append to the histories,
then either start tracking (no classification that frame) or increment the
frame counter and run the cooldown/classification chain followed by the
`max_frames` reset.  `cx` is `middle_finger_tip.x`, `tx` is `thumb_tip.x`. -/
def trackSwipe (t cx tx : ℚ) (s : GState) : GState × Option Gesture :=
  if s.gesture_started = false then
    (trackStart cx (appendHistories cx tx s), none)
  else
    maxFramesReset (cooldownOrClassify t (bumpFrames (appendHistories cx tx s)))

/-- Lines 97-100: clear `finger_licked` when the lick has expired
(`current_time - lick_time > lick_timeout`, strictly). -/
def expireLick (t : ℚ) (s : GState) : GState :=
  if s.finger_licked = true ∧ t - s.lick_time > lick_timeout then
    { s with finger_licked := false }
  else s

/-- Lines 164-174, the `currently_at_lips` branch: set `was_at_lips`, and on
the rising edge of `finger_licked` record the lick time and reset the
cooldown (`last_gesture_time = 0`); if already licked, only `was_at_lips`
changes. -/
def primeOn (t : ℚ) (s : GState) : GState :=
  if s.finger_licked = false then
    { s with was_at_lips := true, finger_licked := true, lick_time := t,
             last_gesture_time := 0 }
  else { s with was_at_lips := true }

/-- Lines 175-180, the `elif self.was_at_lips and self.finger_licked`
branch: record that the finger just left the lips. -/
def primeOff (s : GState) : GState :=
  if s.was_at_lips = true ∧ s.finger_licked = true then
    { s with was_at_lips := false }
  else s

/-- `GestureDetector.detect_gesture` (lines 84-334) as a pure step function.
Order of effects matches the source: lick expiry first (line 98), then
lip-zone derivation, then (if a hand is present) the priming branch (lines
164-180), then swipe tracking under `finger_licked and not
currently_at_lips` (line 189), else tracking reset (lines 309-312; when the
hand is at the lips the tracking condition is false, so the reset branch
runs).  With no hand (lines 329-332) only `gesture_started` and `start_x`
are reset. -/
def detect_gesture (s : GState) (inp : FrameInput) : GState × Option Gesture :=
  match inp.hand with
  | none => ({ expireLick inp.time s with gesture_started := false, start_x := none },
             none)
  | some h =>
    if currently_at_lips h (inp.face.map lipRegionOfFace) then
      (clearTracking (primeOn inp.time (expireLick inp.time s)), none)
    else if (primeOff (expireLick inp.time s)).finger_licked = true then
      trackSwipe inp.time h.middle_tip.x h.thumb_tip.x
        (primeOff (expireLick inp.time s))
    else
      (clearTracking (primeOff (expireLick inp.time s)), none)

/-- `GestureDetector.reset` (lines 336-344).  Note `lick_time` and
`was_at_lips` are not reset by it. -/
def reset (s : GState) : GState :=
  { s with start_x := none
           gesture_started := false
           movement_frames := 0
           last_gesture_time := 0
           position_history := []
           thumb_history := []
           finger_licked := false }

/-- Iterate `detect_gesture` over a list of frames, collecting the per-frame
events in order. -/
def runDetect (s : GState) (frames : List FrameInput) : GState × List (Option Gesture) :=
  match frames with
  | [] => (s, [])
  | f :: rest =>
    ((runDetect (detect_gesture s f).1 rest).1,
     (detect_gesture s f).2 :: (runDetect (detect_gesture s f).1 rest).2)

/-- The navigation state of `PDFProcessor` (`pdf_reader.py`): the claims
consume only the number of loaded pages (`len(self.pages)`) and the current
page index, so pages are modelled by their count. -/
structure PDFProcessor where
  page_count : ℕ
  current_page : ℕ
deriving DecidableEq

/-- `PDFProcessor.next_page` (lines 74-80): when `current_page <
page_count - 1`, advance by 2 clamped to `page_count - 1` and return
`True`; otherwise return `False` unchanged. -/
def next_page (p : PDFProcessor) : PDFProcessor × Bool :=
  if p.current_page < p.page_count - 1 then
    ({ p with current_page := min (p.current_page + 2) (p.page_count - 1) }, true)
  else (p, false)

/-- `PDFProcessor.previous_page` (lines 82-88): when `current_page > 0`,
retreat by 2 clamped to 0 (ℕ subtraction is exactly `max(current_page - 2,
0)`) and return `True`; otherwise return `False` unchanged. -/
def previous_page (p : PDFProcessor) : PDFProcessor × Bool :=
  if 0 < p.current_page then
    ({ p with current_page := p.current_page - 2 }, true)
  else (p, false)

/-- The gesture dispatch of `main.py` lines 53-58: a `'left'` event triggers
`next_page`, a `'right'` event triggers `previous_page`. -/
def handle_gesture (g : Option Gesture) (p : PDFProcessor) : PDFProcessor :=
  match g with
  | some Gesture.left => (next_page p).1
  | some Gesture.right => (previous_page p).1
  | none => p

/-- A call to one of the two navigation methods, for stating invariants over
arbitrary call sequences. -/
inductive PageOp where
  | next
  | prev
deriving DecidableEq

/-- Apply a sequence of navigation calls in order. -/
def applyOps (ops : List PageOp) (p : PDFProcessor) : PDFProcessor :=
  match ops with
  | [] => p
  | PageOp.next :: rest => applyOps rest (next_page p).1
  | PageOp.prev :: rest => applyOps rest (previous_page p).1

/-! ### Helper lemmas about the step function's stages -/

lemma expireLick_cases (t : ℚ) (s : GState) :
    expireLick t s = s ∨ expireLick t s = { s with finger_licked := false } := by
  unfold expireLick
  split
  · right; rfl
  · left; rfl

lemma primeOff_cases (s : GState) :
    primeOff s = s ∨ primeOff s = { s with was_at_lips := false } := by
  unfold primeOff
  split
  · right; rfl
  · left; rfl

lemma primeOff_finger_licked (s : GState) :
    (primeOff s).finger_licked = s.finger_licked := by
  rcases primeOff_cases s with h | h <;> rw [h]

lemma expireLick_licked_true {t : ℚ} {s : GState}
    (h : (expireLick t s).finger_licked = true) : s.finger_licked = true := by
  rcases expireLick_cases t s with h' | h' <;> rw [h'] at h
  · exact h
  · simp at h

lemma primeOff_expireLick_fields (t : ℚ) (s : GState) :
    (primeOff (expireLick t s)).movement_frames = s.movement_frames ∧
    (primeOff (expireLick t s)).position_history = s.position_history ∧
    (primeOff (expireLick t s)).thumb_history = s.thumb_history ∧
    (primeOff (expireLick t s)).gesture_started = s.gesture_started := by
  rcases expireLick_cases t s with h1 | h1 <;> rw [h1] <;>
    (rcases primeOff_cases _ with h2 | h2 <;> rw [h2]) <;> exact ⟨rfl, rfl, rfl, rfl⟩

lemma cooldownOrClassify_emit {t : ℚ} {s s' : GState} {g : Gesture}
    (h : cooldownOrClassify t s = (s', some g)) :
    s' = emitState t s ∧ min_frames ≤ s.movement_frames ∧
    5 ≤ s.position_history.length ∧ 5 ≤ s.thumb_history.length := by
  unfold cooldownOrClassify at h
  split at h
  · simp at h
  · split at h
    · rename_i hcond
      rcases hsc : swipeClassifier s.position_history s.thumb_history with _ | g2 <;>
        simp only [hsc] at h
      · simp at h
      · simp only [Prod.mk.injEq] at h
        exact ⟨h.1.symm, hcond.1, hcond.2.1, hcond.2.2⟩
    · simp at h

lemma maxFramesReset_cases (p : GState × Option Gesture) :
    maxFramesReset p = p ∨ maxFramesReset p = (clearTracking p.1, p.2) := by
  unfold maxFramesReset
  split
  · right; rfl
  · left; rfl

lemma trackSwipe_emit {t cx tx : ℚ} {s s' : GState} {g : Gesture}
    (h : trackSwipe t cx tx s = (s', some g)) :
    s'.last_gesture_time = t ∧ s'.gesture_started = false ∧
    s'.finger_licked = false ∧ s'.position_history = [] ∧ s'.thumb_history = [] ∧
    s'.movement_frames = s.movement_frames + 1 ∧
    min_frames ≤ s.movement_frames + 1 ∧
    5 ≤ (pushTrim s.position_history cx).length ∧
    5 ≤ (pushTrim s.thumb_history tx).length := by
  unfold trackSwipe at h
  split at h
  · simp at h
  · rcases hq : cooldownOrClassify t (bumpFrames (appendHistories cx tx s))
      with ⟨q1, q2⟩
    rw [hq] at h
    rcases maxFramesReset_cases (q1, q2) with hm | hm <;> rw [hm] at h <;>
      simp only [Prod.mk.injEq] at h
    · obtain ⟨rfl, rfl⟩ := h
      obtain ⟨he, hmin, hp5, ht5⟩ := cooldownOrClassify_emit hq
      subst he
      refine ⟨rfl, rfl, rfl, rfl, rfl, rfl, ?_, ?_, ?_⟩
      · simpa [bumpFrames, appendHistories] using hmin
      · simpa [bumpFrames, appendHistories] using hp5
      · simpa [bumpFrames, appendHistories] using ht5
    · obtain ⟨hcl, rfl⟩ := h
      obtain ⟨he, hmin, hp5, ht5⟩ := cooldownOrClassify_emit hq
      subst he
      subst hcl
      refine ⟨rfl, rfl, rfl, rfl, rfl, rfl, ?_, ?_, ?_⟩
      · simpa [bumpFrames, appendHistories] using hmin
      · simpa [bumpFrames, appendHistories] using hp5
      · simpa [bumpFrames, appendHistories] using ht5

lemma detect_emit {s s' : GState} {inp : FrameInput} {g : Gesture}
    (h : detect_gesture s inp = (s', some g)) :
    s'.last_gesture_time = inp.time ∧ s'.gesture_started = false ∧
    s'.finger_licked = false ∧ s'.position_history = [] ∧ s'.thumb_history = [] ∧
    s'.movement_frames = s.movement_frames + 1 ∧
    min_frames ≤ s.movement_frames + 1 ∧ s.finger_licked = true ∧
    ∃ h0, inp.hand = some h0 ∧
      ¬ currently_at_lips h0 (inp.face.map lipRegionOfFace) ∧
      5 ≤ (pushTrim s.position_history h0.middle_tip.x).length ∧
      5 ≤ (pushTrim s.thumb_history h0.thumb_tip.x).length := by
  obtain ⟨t, hand, face⟩ := inp
  cases hand with
  | none => simp [detect_gesture] at h
  | some h0 =>
    unfold detect_gesture at h
    dsimp only at h
    split at h
    · simp at h
    · split at h
      · rename_i hncl hlick
        have e := trackSwipe_emit h
        obtain ⟨hmf, hph, hth, hgs⟩ := primeOff_expireLick_fields t s
        have hsl : s.finger_licked = true :=
          expireLick_licked_true (by rw [← primeOff_finger_licked]; exact hlick)
        rw [hmf, hph, hth] at e
        exact ⟨e.1, e.2.1, e.2.2.1, e.2.2.2.1, e.2.2.2.2.1, e.2.2.2.2.2.1,
          e.2.2.2.2.2.2.1, hsl,
          h0, rfl, hncl, e.2.2.2.2.2.2.2.1, e.2.2.2.2.2.2.2.2⟩
      · simp at h

lemma step_unlicked {s : GState} {inp : FrameInput}
    (hl : s.finger_licked = false) (hnp : ¬ primingFrame inp) :
    (detect_gesture s inp).2 = none ∧
    (detect_gesture s inp).1.finger_licked = false := by
  obtain ⟨t, hand, face⟩ := inp
  have hel : expireLick t s = s := by
    unfold expireLick
    rw [if_neg]
    simp [hl]
  cases hand with
  | none =>
    unfold detect_gesture
    dsimp only
    rw [hel]
    exact ⟨rfl, hl⟩
  | some h0 =>
    have hcl : ¬ currently_at_lips h0 (face.map lipRegionOfFace) := by
      simpa [primingFrame] using hnp
    have hfl : (primeOff s).finger_licked = false := by
      rw [primeOff_finger_licked]; exact hl
    unfold detect_gesture
    dsimp only
    rw [hel, if_neg hcl, if_neg (by simp [hfl])]
    exact ⟨rfl, by simp [clearTracking, hfl]⟩

/-! ### Claim C3 -/

/-- Claim C3 (amended): a step with no HandObservation returns no event,
resets `gesture_started` and `start_x`, leaves both position histories
UNCHANGED (the code does not clear them on hand absence), and leaves the
priming state unchanged except for its own timeout expiry (which runs at
the start of every step). -/
theorem claim_C3 (s : GState) (t : ℚ) (face : Option FaceObservation) :
    (detect_gesture s ⟨t, none, face⟩).2 = none ∧
    (detect_gesture s ⟨t, none, face⟩).1.finger_licked =
      (expireLick t s).finger_licked ∧
    (detect_gesture s ⟨t, none, face⟩).1.lick_time = s.lick_time ∧
    (detect_gesture s ⟨t, none, face⟩).1.gesture_started = false ∧
    (detect_gesture s ⟨t, none, face⟩).1.start_x = none ∧
    (detect_gesture s ⟨t, none, face⟩).1.position_history = s.position_history ∧
    (detect_gesture s ⟨t, none, face⟩).1.thumb_history = s.thumb_history := by
  rcases expireLick_cases t s with h | h <;>
    refine ⟨rfl, ?_, ?_, rfl, rfl, ?_, ?_⟩ <;>
    · show _ = _
      rw [show (detect_gesture s ⟨t, none, face⟩).1 =
        { expireLick t s with gesture_started := false, start_x := none } from rfl, h]

/-- The state used to refute claim C3 as frozen: priming active with an
expired timestamp and a non-empty tracking history. -/
def c3state : GState :=
  { initState with finger_licked := true, lick_time := 0,
                   gesture_started := true, start_x := some (3/10),
                   position_history := [3/10], thumb_history := [3/10] }

/-- Claim C3 counterexample: on a no-hand frame at time 6 (lick at time 0,
timeout 5) the step returns no event but does NOT clear the position
histories (they remain `[3/10]`), and the priming state does change (the
lick expires).  This refutes both "clears both position histories" and
"leaves the priming state unchanged" from the frozen claim. -/
theorem claim_C3_counterexample :
    (detect_gesture c3state ⟨6, none, none⟩).2 = none ∧
    (detect_gesture c3state ⟨6, none, none⟩).1.position_history = [3/10] ∧
    (detect_gesture c3state ⟨6, none, none⟩).1.thumb_history = [3/10] ∧
    c3state.finger_licked = true ∧
    (detect_gesture c3state ⟨6, none, none⟩).1.finger_licked = false := by
  with_unfolding_all decide

/-! ### Claim C5 -/

/-- Claim C5 (amended): if priming is active with timestamp `lick_time` and
a step is evaluated at a time STRICTLY after `lick_time + lick_timeout`,
the expiry stage — the first thing the step runs, before any other
processing of the frame — sets the priming state to false, and the step
behaves exactly as if `finger_licked` had already been false; provided the
frame does not itself re-prime, the post-state has `finger_licked = false`.
(The frozen claim's "at or after" fails at the exact boundary because the
code compares with a strict `>`.) -/
theorem claim_C5 (s : GState) (inp : FrameInput)
    (hl : s.finger_licked = true) (ht : lick_timeout < inp.time - s.lick_time) :
    expireLick inp.time s = { s with finger_licked := false } ∧
    detect_gesture s inp = detect_gesture { s with finger_licked := false } inp ∧
    (¬ primingFrame inp → (detect_gesture s inp).1.finger_licked = false) := by
  obtain ⟨t, hand, face⟩ := inp
  have he1 : expireLick t s = { s with finger_licked := false } := by
    unfold expireLick
    rw [if_pos ⟨hl, ht⟩]
  have he2 : expireLick t { s with finger_licked := false } =
      { s with finger_licked := false } := by
    unfold expireLick
    rw [if_neg]
    simp
  have hmain : detect_gesture s ⟨t, hand, face⟩ =
      detect_gesture { s with finger_licked := false } ⟨t, hand, face⟩ := by
    cases hand with
    | none =>
      unfold detect_gesture
      dsimp only
      rw [he1, he2]
    | some h0 =>
      unfold detect_gesture
      dsimp only
      rw [he1, he2]
  refine ⟨he1, hmain, fun hnp => ?_⟩
  rw [hmain]
  exact (step_unlicked rfl hnp).2

/-- Claim C5 counterexample: priming achieved at time 10, step evaluated at
time exactly 15 = 10 + priming_timeout, no hand.  The frozen claim says the
priming state becomes false at the first step at or after that time, but
the code's strict comparison leaves it true. -/
theorem claim_C5_counterexample :
    (detect_gesture { initState with finger_licked := true, lick_time := 10 }
      ⟨15, none, none⟩).1.finger_licked = true := by
  with_unfolding_all decide

/-- Witness for claim C5 at a concrete input: lick at time 10, step at time
16 (strictly past the timeout), no hand. -/
theorem claim_C5_witness :
    (detect_gesture { initState with finger_licked := true, lick_time := 10 }
      ⟨16, none, none⟩).1.finger_licked = false :=
  (claim_C5 { initState with finger_licked := true, lick_time := 10 }
    ⟨16, none, none⟩ rfl (by norm_num [lick_timeout, initState])).2.2
    (by simp [primingFrame])

/-! ### Claim C6 -/

/-- Claim C6: every step that emits a swipe event records the current time
in `last_gesture_time`, stops tracking, consumes the priming
(`finger_licked = false`) and empties both position histories. -/
theorem claim_C6 (s : GState) (inp : FrameInput) (s' : GState) (g : Gesture)
    (h : detect_gesture s inp = (s', some g)) :
    s'.last_gesture_time = inp.time ∧ s'.gesture_started = false ∧
    s'.finger_licked = false ∧ s'.position_history = [] ∧
    s'.thumb_history = [] := by
  have e := detect_emit h
  exact ⟨e.1, e.2.1, e.2.2.1, e.2.2.2.1, e.2.2.2.2.1⟩

/-- A moving hand used in concrete executions: not in the lick pose (all
fingertips low in the frame), with middle fingertip and thumb at abscissa
`x`. -/
def moveHand (x : ℚ) : HandObservation :=
  { wrist := ⟨x, 9/10⟩, thumb_tip := ⟨x, 9/10⟩, index_mcp := ⟨x, 9/10⟩
    index_pip := ⟨x, 9/10⟩, index_tip := ⟨x, 9/10⟩, middle_pip := ⟨x, 9/10⟩
    middle_tip := ⟨x, 9/10⟩, ring_tip := ⟨x, 9/10⟩, pinky_tip := ⟨x, 9/10⟩ }

/-- A mid-gesture state about to emit a right swipe on the next frame. -/
def c6state : GState :=
  { start_x := some (30/100), gesture_started := true, movement_frames := 2,
    last_gesture_time := 0, finger_licked := true, lick_time := 98/10,
    was_at_lips := false,
    position_history := [30/100, 33/100, 36/100, 40/100],
    thumb_history := [30/100, 33/100, 36/100, 40/100] }

/-- The post-state of the emitting step from `c6state`. -/
def c6post : GState :=
  { start_x := some (30/100), gesture_started := false, movement_frames := 3,
    last_gesture_time := 10, finger_licked := false, lick_time := 98/10,
    was_at_lips := false, position_history := [], thumb_history := [] }

/-- Witness for claim C6: a concrete emitting step (a rightward sweep at
time 10) satisfies all the post-state equalities. -/
theorem claim_C6_witness :
    c6post.last_gesture_time = (10:ℚ) ∧ c6post.gesture_started = false ∧
    c6post.finger_licked = false ∧ c6post.position_history = [] ∧
    c6post.thumb_history = [] := by
  have h : detect_gesture c6state ⟨10, some (moveHand (45/100)), none⟩ =
      (c6post, some Gesture.right) := by
    with_unfolding_all decide
  simpa using
    claim_C6 c6state ⟨10, some (moveHand (45/100)), none⟩ c6post Gesture.right h

/-! ### Claim C4 -/

/-- Claim C4: on a frame whose hand satisfies the priming condition, if
priming was not already active (post-expiry: either `finger_licked` was
false, or its timeout had elapsed) the step activates priming, records the
current time as the priming timestamp, and resets `last_gesture_time` to 0
(waiving any active cooldown); if priming was already active, the step
leaves both the priming timestamp and `last_gesture_time` unchanged; in
either case no swipe tracking occurs that frame: no event is emitted, the
at-lips frame's coordinates are not appended to the histories (the tracking
condition at line 189 is false, so the reset branch at lines 309-312 runs
and both histories end the frame empty), the tracking-started flag is
cleared, and the frame counter is untouched — so no classification can run
either. -/
theorem claim_C4 (s : GState) (inp : FrameInput) (h0 : HandObservation)
    (hh : inp.hand = some h0)
    (hp : currently_at_lips h0 (inp.face.map lipRegionOfFace)) :
    (¬ (s.finger_licked = true ∧ inp.time - s.lick_time ≤ lick_timeout) →
       (detect_gesture s inp).1.finger_licked = true ∧
       (detect_gesture s inp).1.lick_time = inp.time ∧
       (detect_gesture s inp).1.last_gesture_time = 0) ∧
    ((s.finger_licked = true ∧ inp.time - s.lick_time ≤ lick_timeout) →
       (detect_gesture s inp).1.lick_time = s.lick_time ∧
       (detect_gesture s inp).1.last_gesture_time = s.last_gesture_time ∧
       (detect_gesture s inp).1.finger_licked = true) ∧
    (detect_gesture s inp).2 = none ∧
    (detect_gesture s inp).1.position_history = [] ∧
    (detect_gesture s inp).1.thumb_history = [] ∧
    (detect_gesture s inp).1.gesture_started = false ∧
    (detect_gesture s inp).1.movement_frames = s.movement_frames := by
  obtain ⟨t, hand, face⟩ := inp
  dsimp only at hh hp ⊢
  subst hh
  unfold detect_gesture
  dsimp only
  rw [if_pos hp]
  have hmf : (clearTracking (primeOn t (expireLick t s))).movement_frames =
      s.movement_frames := by
    rcases expireLick_cases t s with h | h <;> rw [h] <;>
      (unfold primeOn; split <;> rfl)
  refine ⟨?_, ?_, rfl, rfl, rfl, rfl, hmf⟩
  · intro hna
    by_cases hl : s.finger_licked = true
    · have ht : lick_timeout < t - s.lick_time := by
        by_contra hc
        exact hna ⟨hl, not_lt.mp hc⟩
      have hel : expireLick t s = { s with finger_licked := false } := by
        unfold expireLick
        rw [if_pos ⟨hl, ht⟩]
      rw [hel]
      simp [primeOn, clearTracking]
    · have hel : expireLick t s = s := by
        unfold expireLick
        rw [if_neg]
        intro hc
        exact hl hc.1
      rw [hel]
      have hfl : s.finger_licked = false := by
        revert hl
        cases s.finger_licked <;> simp
      simp [primeOn, clearTracking, hfl]
  · rintro ⟨hl, hle⟩
    have hel : expireLick t s = s := by
      unfold expireLick
      rw [if_neg]
      rintro ⟨-, hgt⟩
      exact absurd hgt (not_lt.mpr hle)
    rw [hel]
    simp [primeOn, clearTracking, hl]

/-- A hand in the finger-lick pose: index fingertip high (y = 0.2), its
middle joint and the other fingertips at y = 0.4. -/
def lickHand : HandObservation :=
  { wrist := ⟨1/2, 9/10⟩, thumb_tip := ⟨1/2, 1/2⟩, index_mcp := ⟨1/2, 1/2⟩
    index_pip := ⟨1/2, 4/10⟩, index_tip := ⟨1/2, 2/10⟩, middle_pip := ⟨1/2, 1/2⟩
    middle_tip := ⟨1/2, 4/10⟩, ring_tip := ⟨1/2, 4/10⟩, pinky_tip := ⟨1/2, 4/10⟩ }

/-- Witness for claim C4: from the initial (unprimed) state, a lick-pose
frame at time 10 activates priming, stamps it with time 10, and zeroes the
cooldown timer. -/
theorem claim_C4_witness :
    (detect_gesture initState ⟨10, some lickHand, none⟩).1.finger_licked = true ∧
    (detect_gesture initState ⟨10, some lickHand, none⟩).1.lick_time = 10 ∧
    (detect_gesture initState ⟨10, some lickHand, none⟩).1.last_gesture_time = 0 := by
  have h := (claim_C4 initState ⟨10, some lickHand, none⟩ lickHand rfl
      (by with_unfolding_all decide)).1 (by simp [initState])
  simpa using h

/-! ### Claim C2 -/

/-- Modelled from the claim/spec wording (§4.3): the full right-swipe
condition — `Δf > 0.12`, finger right-vote ratio above the (fast-dependent)
required consistency, and thumb/finger agreement on the right. -/
def specRightCond (ph th : List ℚ) : Prop :=
  netMovement ph > 12/100 ∧
  rightVoteFrac ph > (if |netMovement ph| > 20/100 then (5:ℚ)/10 else 6/10) ∧
  rightVoteFrac ph > 5/10 ∧ rightVoteFrac th > 5/10

instance (ph th : List ℚ) : Decidable (specRightCond ph th) := by
  unfold specRightCond
  infer_instance

/-- Modelled from the claim/spec wording (§4.3): the full left-swipe
condition — `Δf < −0.10`, finger left-vote ratio above the (fast-dependent)
required consistency, and thumb/finger agreement on the left. -/
def specLeftCond (ph th : List ℚ) : Prop :=
  netMovement ph < -(10/100) ∧
  leftVoteFrac ph > (if |netMovement ph| > 20/100 then (45:ℚ)/100 else 55/100) ∧
  leftVoteFrac ph > 45/100 ∧ leftVoteFrac th > 45/100

instance (ph th : List ℚ) : Decidable (specLeftCond ph th) := by
  unfold specLeftCond
  infer_instance

/-- Claim C2: with zero directional votes in either stream the classifier
returns `none`; with votes in both streams (and histories of equal length
≥ 5) it returns `right` iff the full right condition holds, otherwise
`left` iff the full left condition holds, otherwise `none`. -/
theorem claim_C2 (ph th : List ℚ) :
    ((totalVotes ph = 0 ∨ totalVotes th = 0) → swipeClassifier ph th = none) ∧
    (5 ≤ ph.length → ph.length = th.length →
      0 < totalVotes ph → 0 < totalVotes th →
      ((swipeClassifier ph th = some Gesture.right ↔ specRightCond ph th) ∧
       (¬ specRightCond ph th →
         (swipeClassifier ph th = some Gesture.left ↔ specLeftCond ph th)) ∧
       (¬ specRightCond ph th → ¬ specLeftCond ph th →
         swipeClassifier ph th = none))) := by
  have hRC : (netMovement ph > swipe_threshold_right ∧
      rightVoteFrac ph >
        (if |netMovement ph| > fast_swipe_threshold then (5:ℚ)/10 else 6/10) ∧
      (rightVoteFrac ph > 5/10 ∧ rightVoteFrac th > 5/10)) ↔
      specRightCond ph th := by
    unfold specRightCond swipe_threshold_right fast_swipe_threshold
    constructor
    · rintro ⟨a, b, c, d⟩
      exact ⟨a, b, c, d⟩
    · rintro ⟨a, b, c, d⟩
      exact ⟨a, b, c, d⟩
  have hLC : (netMovement ph < -swipe_threshold_left ∧
      leftVoteFrac ph >
        (if |netMovement ph| > fast_swipe_threshold then (45:ℚ)/100 else 55/100) ∧
      (leftVoteFrac ph > 45/100 ∧ leftVoteFrac th > 45/100)) ↔
      specLeftCond ph th := by
    unfold specLeftCond swipe_threshold_left fast_swipe_threshold
    constructor
    · rintro ⟨a, b, c, d⟩
      exact ⟨a, b, c, d⟩
    · rintro ⟨a, b, c, d⟩
      exact ⟨a, b, c, d⟩
  constructor
  · intro hz
    have hng : ¬ (0 < totalVotes ph ∧ 0 < totalVotes th) := by
      rcases hz with hz | hz <;> omega
    unfold swipeClassifier
    rw [if_neg hng]
  · intro _ _ hv1 hv2
    unfold swipeClassifier
    rw [if_pos ⟨hv1, hv2⟩]
    by_cases hR : netMovement ph > swipe_threshold_right ∧
        rightVoteFrac ph >
          (if |netMovement ph| > fast_swipe_threshold then (5:ℚ)/10 else 6/10) ∧
        (rightVoteFrac ph > 5/10 ∧ rightVoteFrac th > 5/10)
    · rw [if_pos hR]
      exact ⟨⟨fun _ => hRC.mp hR, fun _ => rfl⟩,
             fun hnR => absurd (hRC.mp hR) hnR,
             fun hnR _ => absurd (hRC.mp hR) hnR⟩
    · rw [if_neg hR]
      by_cases hL : netMovement ph < -swipe_threshold_left ∧
          leftVoteFrac ph >
            (if |netMovement ph| > fast_swipe_threshold then (45:ℚ)/100 else 55/100) ∧
          (leftVoteFrac ph > 45/100 ∧ leftVoteFrac th > 45/100)
      · rw [if_pos hL]
        refine ⟨⟨fun he => by simp at he, fun hs => absurd (hRC.mpr hs) hR⟩,
                fun _ => ⟨fun _ => hLC.mp hL, fun _ => rfl⟩,
                fun _ hnL => absurd (hLC.mp hL) hnL⟩
      · rw [if_neg hL]
        exact ⟨⟨fun he => by simp at he, fun hs => absurd (hRC.mpr hs) hR⟩,
               fun _ => ⟨fun he => by simp at he, fun hs => absurd (hLC.mpr hs) hL⟩,
               fun _ _ => rfl⟩

/-- Witness for claim C2: a steady rightward sweep (Δf = 0.15, all four
steps rightward in both streams) classifies as `right` via the iff. -/
theorem claim_C2_witness :
    swipeClassifier [30/100, 33/100, 36/100, 40/100, 45/100]
      [30/100, 33/100, 36/100, 40/100, 45/100] = some Gesture.right :=
  ((claim_C2 [30/100, 33/100, 36/100, 40/100, 45/100]
      [30/100, 33/100, 36/100, 40/100, 45/100]).2
    (by decide) (by decide)
    (by with_unfolding_all decide) (by with_unfolding_all decide)).1.mpr
    (by with_unfolding_all decide)

/-! ### Claim C7 -/

/-- Claim C7: the priming detector fires iff the pose heuristic holds
(index fingertip above its middle joint by more than 0.05, in the top half
of the frame, and higher than the middle, ring and pinky fingertips each by
more than 0.05) OR a lip zone is present and the Euclidean distance from
the index fingertip to the lip-zone center is strictly below the radius
0.08.  The right-hand side states the proximity test with a genuine real
square root, matching `np.sqrt(dx**2 + dy**2) < radius` in the source. -/
theorem claim_C7 (h : HandObservation) (face : Option FaceObservation) :
    currently_at_lips h (face.map lipRegionOfFace) ↔
      ((h.index_tip.y < h.index_pip.y - 5/100 ∧ h.index_tip.y < 1/2 ∧
        (h.index_tip.y < h.middle_tip.y - 5/100 ∧
         h.index_tip.y < h.ring_tip.y - 5/100 ∧
         h.index_tip.y < h.pinky_tip.y - 5/100)) ∨
       (∃ f, face = some f ∧
         Real.sqrt
           (((h.index_tip.x - (f.upper_lip.x + f.lower_lip.x) / 2 : ℚ) : ℝ) ^ 2 +
            ((h.index_tip.y - (f.upper_lip.y + f.lower_lip.y) / 2 : ℚ) : ℝ) ^ 2)
           < ((8/100 : ℚ) : ℝ))) := by
  unfold currently_at_lips
  refine or_congr ?_ ?_
  · unfold is_finger_lick_pose
    exact Iff.rfl
  · cases face with
    | none =>
      simp [finger_at_lips]
    | some f =>
      show ((h.index_tip.x - (f.upper_lip.x + f.lower_lip.x) / 2) ^ 2 +
            (h.index_tip.y - (f.upper_lip.y + f.lower_lip.y) / 2) ^ 2 <
            (8/100 : ℚ) ^ 2) ↔ _
      constructor
      · intro hq
        refine ⟨f, rfl, ?_⟩
        rw [Real.sqrt_lt' (by norm_num : (0:ℝ) < ((8/100 : ℚ) : ℝ))]
        exact_mod_cast hq
      · rintro ⟨f', hf', hlt⟩
        injection hf' with hf'
        subst hf'
        rw [Real.sqrt_lt' (by norm_num : (0:ℝ) < ((8/100 : ℚ) : ℝ))] at hlt
        exact_mod_cast hlt

/-! ### Claims C8 and C9 -/

lemma expireLick_fields (t : ℚ) (s : GState) :
    (expireLick t s).position_history = s.position_history ∧
    (expireLick t s).thumb_history = s.thumb_history ∧
    (expireLick t s).lick_time = s.lick_time := by
  rcases expireLick_cases t s with h | h <;> rw [h] <;> exact ⟨rfl, rfl, rfl⟩

lemma pushTrim_length_le {l : List ℚ} (x : ℚ) (h : l.length ≤ history_size) :
    (pushTrim l x).length ≤ history_size := by
  unfold pushTrim
  split <;> simp_all

lemma pushTrim_length_eq {a b : List ℚ} (x y : ℚ) (h : a.length = b.length) :
    (pushTrim a x).length = (pushTrim b y).length := by
  unfold pushTrim
  by_cases hc : history_size < b.length + 1
  · rw [if_pos (by simpa [h] using hc), if_pos (by simpa using hc)]
    simp [h]
  · rw [if_neg (by simpa [h] using hc), if_neg (by simpa using hc)]
    simp [h]

/-- After any step, each history is either unchanged, empty, or the
trimmed-append of the pre-state history with the frame's fingertip
coordinate — and the finger and thumb histories always take the same one of
the three shapes, per frame. -/
lemma detect_hist_shape (s : GState) (inp : FrameInput) :
    ((detect_gesture s inp).1.position_history = s.position_history ∧
      (detect_gesture s inp).1.thumb_history = s.thumb_history) ∨
    ((detect_gesture s inp).1.position_history = [] ∧
      (detect_gesture s inp).1.thumb_history = []) ∨
    (∃ h0, inp.hand = some h0 ∧
      (detect_gesture s inp).1.position_history =
        pushTrim s.position_history h0.middle_tip.x ∧
      (detect_gesture s inp).1.thumb_history =
        pushTrim s.thumb_history h0.thumb_tip.x) := by
  obtain ⟨t, hand, face⟩ := inp
  cases hand with
  | none =>
    left
    obtain ⟨h1, h2, -⟩ := expireLick_fields t s
    exact ⟨h1, h2⟩
  | some h0 =>
    obtain ⟨hmf, hph, hth, hgs⟩ := primeOff_expireLick_fields t s
    unfold detect_gesture
    dsimp only
    split
    · right; left
      exact ⟨rfl, rfl⟩
    · split
      · unfold trackSwipe
        split
        · right; right
          exact ⟨h0, rfl, by simp [trackStart, appendHistories, hph],
                 by simp [trackStart, appendHistories, hth]⟩
        · rcases maxFramesReset_cases (cooldownOrClassify t (bumpFrames
            (appendHistories h0.middle_tip.x h0.thumb_tip.x
              (primeOff (expireLick t s))))) with hm | hm <;> rw [hm]
          · unfold cooldownOrClassify
            split
            · right; left
              exact ⟨rfl, rfl⟩
            · split
              · rcases hsc : swipeClassifier (bumpFrames (appendHistories
                    h0.middle_tip.x h0.thumb_tip.x
                    (primeOff (expireLick t s)))).position_history
                  (bumpFrames (appendHistories h0.middle_tip.x h0.thumb_tip.x
                    (primeOff (expireLick t s)))).thumb_history with _ | g <;>
                  simp only [hsc]
                · right; right
                  exact ⟨h0, rfl, by simp [bumpFrames, appendHistories, hph],
                         by simp [bumpFrames, appendHistories, hth]⟩
                · right; left
                  exact ⟨rfl, rfl⟩
              · right; right
                exact ⟨h0, rfl, by simp [bumpFrames, appendHistories, hph],
                       by simp [bumpFrames, appendHistories, hth]⟩
          · right; left
            exact ⟨rfl, rfl⟩
      · right; left
        exact ⟨rfl, rfl⟩

/-- Claim C8: from a state within capacity, each history stays within the
capacity 15 after any step; and an emitted event implies the classifier was
consulted with frame counter ≥ min_frames and both (post-append) histories
holding at least 5 samples. -/
theorem claim_C8 (s : GState) (inp : FrameInput)
    (hp : s.position_history.length ≤ history_size)
    (hq : s.thumb_history.length ≤ history_size) :
    ((detect_gesture s inp).1.position_history.length ≤ history_size ∧
     (detect_gesture s inp).1.thumb_history.length ≤ history_size) ∧
    ∀ s' g, detect_gesture s inp = (s', some g) →
      min_frames ≤ s'.movement_frames ∧
      ∃ h0, inp.hand = some h0 ∧
        5 ≤ (pushTrim s.position_history h0.middle_tip.x).length ∧
        5 ≤ (pushTrim s.thumb_history h0.thumb_tip.x).length := by
  constructor
  · rcases detect_hist_shape s inp with ⟨h1, h2⟩ | ⟨h1, h2⟩ | ⟨h0, -, h1, h2⟩ <;>
      rw [h1, h2]
    · exact ⟨hp, hq⟩
    · simp
    · exact ⟨pushTrim_length_le _ hp, pushTrim_length_le _ hq⟩
  · intro s' g hemit
    obtain ⟨-, -, -, -, -, hmf, hmin, -, h0, hh, -, h5p, h5t⟩ := detect_emit hemit
    refine ⟨?_, h0, hh, h5p, h5t⟩
    rw [hmf]
    exact hmin

/-- Witness for claim C8: the initial state within capacity, one no-hand
frame. -/
theorem claim_C8_witness :
    (detect_gesture initState ⟨0, none, none⟩).1.position_history.length ≤
      history_size ∧
    (detect_gesture initState ⟨0, none, none⟩).1.thumb_history.length ≤
      history_size :=
  (claim_C8 initState ⟨0, none, none⟩ (by decide) (by decide)).1

/-- Claim C9 (implicit invariant): the finger and thumb histories have
equal length after every step (they are appended to, trimmed, and cleared
together), and after `reset`. -/
theorem claim_C9 (s : GState) (inp : FrameInput)
    (hlen : s.position_history.length = s.thumb_history.length) :
    (detect_gesture s inp).1.position_history.length =
      (detect_gesture s inp).1.thumb_history.length ∧
    (reset s).position_history.length = (reset s).thumb_history.length := by
  refine ⟨?_, rfl⟩
  rcases detect_hist_shape s inp with ⟨h1, h2⟩ | ⟨h1, h2⟩ | ⟨h0, -, h1, h2⟩ <;>
    rw [h1, h2]
  · exact hlen
  · exact pushTrim_length_eq _ _ hlen

/-- Witness for claim C9: the initial state, one no-hand frame. -/
theorem claim_C9_witness :
    (detect_gesture initState ⟨0, none, none⟩).1.position_history.length =
      (detect_gesture initState ⟨0, none, none⟩).1.thumb_history.length ∧
    (reset initState).position_history.length =
      (reset initState).thumb_history.length :=
  claim_C9 initState ⟨0, none, none⟩ rfl

/-! ### Claim C1 -/

lemma run_unlicked : ∀ (frames : List FrameInput) (s : GState),
    s.finger_licked = false → (∀ f ∈ frames, ¬ primingFrame f) →
    ∀ e ∈ (runDetect s frames).2, e = none := by
  intro frames
  induction frames with
  | nil =>
    intro s _ _ e he
    simp [runDetect] at he
  | cons f rest ih =>
    intro s hl hnp e he
    have hstep := step_unlicked hl (hnp f (List.mem_cons_self f rest))
    simp only [runDetect] at he
    rcases List.mem_cons.mp he with he1 | hmem
    · rw [he1]
      exact hstep.1
    · exact ih (detect_gesture s f).1 hstep.2
        (fun f' hf' => hnp f' (List.mem_cons_of_mem f hf')) e hmem

/-- Claim C1 (amended): once a step emits a swipe event, no subsequent step
emits any event — at any time, in particular within the cooldown — as long
as no intervening frame satisfies the priming condition.  (The frozen
claim's unconditional version is false: emission consumes the priming, but
a fresh priming frame resets `last_gesture_time` to 0, waiving the cooldown
and allowing a second swipe well inside `cooldown_duration`; see the
counterexample.) -/
theorem claim_C1 (s : GState) (inp : FrameInput) (s' : GState) (g : Gesture)
    (hemit : detect_gesture s inp = (s', some g))
    (frames : List FrameInput) (hnp : ∀ f ∈ frames, ¬ primingFrame f) :
    ∀ e ∈ (runDetect s' frames).2, e = none := by
  have hl : s'.finger_licked = false := (detect_emit hemit).2.2.1
  exact run_unlicked frames s' hl hnp

/-- A frame showing a moving hand at time `t`, fingertips at abscissa `x`. -/
def sweepFrame (t x : ℚ) : FrameInput := ⟨t, some (moveHand x), none⟩

/-- A frame showing the lick-pose hand at time `t`. -/
def lickFrame (t : ℚ) : FrameInput := ⟨t, some lickHand, none⟩

/-- Two qualifying rightward sweeps separated by a fresh priming frame: the
first sweep completes at time 10.5, the second at 11.1 — only 0.6 s later,
inside the 1.5 s cooldown. -/
def framesC1 : List FrameInput :=
  [lickFrame 10,
   sweepFrame (101/10) (30/100), sweepFrame (102/10) (33/100),
   sweepFrame (103/10) (36/100), sweepFrame (104/10) (40/100),
   sweepFrame (105/10) (45/100),
   lickFrame (106/10),
   sweepFrame (107/10) (30/100), sweepFrame (108/10) (33/100),
   sweepFrame (109/10) (36/100), sweepFrame (110/10) (40/100),
   sweepFrame (111/10) (45/100)]

/-- Claim C1 counterexample: running the detector from the initial state
over `framesC1` emits a `right` swipe at the step evaluated at time 10.5
AND another `right` swipe at the step evaluated at time 11.1, although
11.1 − 10.5 = 0.6 ≤ cooldown = 1.5.  The intervening lick frame at 10.6
re-primed the detector and reset `last_gesture_time` to 0, so the cooldown
check passed. -/
theorem claim_C1_counterexample :
    (runDetect initState framesC1).2 =
      [none, none, none, none, none, some Gesture.right,
       none, none, none, none, none, some Gesture.right] ∧
    framesC1.map FrameInput.time =
      [10, 101/10, 102/10, 103/10, 104/10, 105/10, 106/10,
       107/10, 108/10, 109/10, 110/10, 111/10] ∧
    (111/10 : ℚ) - 105/10 ≤ gesture_cooldown := by
  refine ⟨?_, ?_, ?_⟩ <;> with_unfolding_all decide

/-- Witness for claim C1: after the concrete emitting step from `c6state`,
the subsequent non-priming motion frame produces no event. -/
theorem claim_C1_witness :
    (detect_gesture c6post ⟨101/10, some (moveHand (50/100)), none⟩).2 = none := by
  have hemit : detect_gesture c6state ⟨10, some (moveHand (45/100)), none⟩ =
      (c6post, some Gesture.right) := by
    with_unfolding_all decide
  exact claim_C1 c6state ⟨10, some (moveHand (45/100)), none⟩ c6post
    Gesture.right hemit [⟨101/10, some (moveHand (50/100)), none⟩]
    (by
      rintro f hf
      rcases List.mem_singleton.mp hf with rfl
      with_unfolding_all decide)
    (detect_gesture c6post ⟨101/10, some (moveHand (50/100)), none⟩).2
    (List.mem_cons_self _ _)

/-! ### Claim C10 -/

lemma applyOps_le {n : ℕ} : ∀ (ops : List PageOp) (p : PDFProcessor),
    p.page_count = n → p.current_page ≤ n - 1 →
    (applyOps ops p).current_page ≤ n - 1 ∧ (applyOps ops p).page_count = n := by
  intro ops
  induction ops with
  | nil =>
    intro p h1 h2
    exact ⟨h2, h1⟩
  | cons op rest ih =>
    intro p h1 h2
    cases op with
    | next =>
      show (applyOps rest (next_page p).1).current_page ≤ n - 1 ∧ _
      apply ih
      · unfold next_page
        split <;> exact h1
      · unfold next_page
        split <;> dsimp <;> omega
    | prev =>
      show (applyOps rest (previous_page p).1).current_page ≤ n - 1 ∧ _
      apply ih
      · unfold previous_page
        split <;> exact h1
      · unfold previous_page
        split <;> dsimp <;> omega

/-- Claim C10: for a PDF with at least one page, starting from page 0, any
sequence of `next_page`/`previous_page` calls keeps `current_page` within
`[0, page_count − 1]` (the lower bound is inherent in ℕ); `next_page`
returns `True` and advances by 2 clamped to `page_count − 1` exactly when
`current_page < page_count − 1`, else returns `False` unchanged;
`previous_page` returns `True` and retreats by 2 clamped to 0 (ℕ
subtraction) exactly when `current_page > 0`, else returns `False`
unchanged; and a `left` gesture dispatches to `next_page` while a `right`
gesture dispatches to `previous_page`. -/
theorem claim_C10 (n : ℕ) (hn : 1 ≤ n) :
    (∀ ops : List PageOp, (applyOps ops ⟨n, 0⟩).current_page ≤ n - 1) ∧
    (∀ p : PDFProcessor, p.page_count = n →
      (((next_page p).2 = true ↔ p.current_page < n - 1) ∧
       (p.current_page < n - 1 →
         (next_page p).1.current_page = min (p.current_page + 2) (n - 1)) ∧
       (¬ p.current_page < n - 1 → (next_page p).1 = p)) ∧
      (((previous_page p).2 = true ↔ 0 < p.current_page) ∧
       (0 < p.current_page →
         (previous_page p).1.current_page = p.current_page - 2) ∧
       (¬ 0 < p.current_page → (previous_page p).1 = p))) ∧
    (∀ p : PDFProcessor,
      handle_gesture (some Gesture.left) p = (next_page p).1 ∧
      handle_gesture (some Gesture.right) p = (previous_page p).1) := by
  refine ⟨?_, ?_, fun p => ⟨rfl, rfl⟩⟩
  · intro ops
    exact (applyOps_le ops ⟨n, 0⟩ rfl (Nat.zero_le _)).1
  · intro p h1
    subst h1
    refine ⟨⟨?_, ?_, ?_⟩, ⟨?_, ?_, ?_⟩⟩
    · unfold next_page
      split <;> simp_all
    · intro hc
      unfold next_page
      rw [if_pos hc]
    · intro hc
      unfold next_page
      rw [if_neg hc]
    · unfold previous_page
      split <;> simp_all
    · intro hc
      unfold previous_page
      rw [if_pos hc]
    · intro hc
      unfold previous_page
      rw [if_neg hc]

/-- Witness for claim C10: a 3-page document, two forward turns then one
back turn, index stays within bounds. -/
theorem claim_C10_witness :
    (applyOps [PageOp.next, PageOp.next, PageOp.prev] ⟨3, 0⟩).current_page ≤
      3 - 1 :=
  (claim_C10 3 (by norm_num)).1 [PageOp.next, PageOp.next, PageOp.prev]

end InconvenientPDF
